import Mathlib

/-!
Verification of the mockllm server (src/mockllm/server.py) against its
natural-language specification.

The reviewed sources contain only `server.py`.  The repository modules
`config.py` (the `ResponseConfig` resolver and timed emitter) and
`models.py` (the pydantic request/response schemas) are referenced by
`server.py` but are not in the reviewed sources; the definitions below that
stand in for them carry a doc comment starting with "Modelled from the
spec:" and follow the specification text.  Everything else is a direct
transcription of `server.py`.

Timing (the simulated delays) has no observable effect on emitted content,
so the embedding carries the timing policy explicitly but models each
stream as the finite list of the strings it yields, in order.
-/

namespace MockLLM

/-- Modelled from the spec: a chat message as both vendor request schemas
expose it (role and content); `models.py` is not in the reviewed sources. -/
structure Message where
  role : String
  content : String
deriving DecidableEq

/-- Modelled from the spec: one prompt-matching rule of the Configuration
Store — a pattern and the response text returned when it matches. -/
structure MatchRule where
  pattern : String
  response : String
deriving DecidableEq

/-- Modelled from the spec: the timing parameters — an initial response
delay and an inter-chunk delay, both non-negative. -/
structure TimingPolicy where
  initial_delay : Nat
  inter_chunk_delay : Nat
deriving DecidableEq

/-- Modelled from the spec: an ordered sequence of MatchRules plus a
`default_response` used when no rule matches. -/
structure ResolverConfig where
  rules : List MatchRule
  default_response : String
deriving DecidableEq

/-- The process-wide context the handlers read: the matching strategy (left
open by the spec, hence a parameter), the resolver configuration, the
timing policy, and the external tokenizer lookup (tiktoken is a third-party
collaborator; a `none` result models `encoding_for_model` raising). -/
structure ServerContext where
  matching : String → String → Bool
  resolver : ResolverConfig
  timing : TimingPolicy
  encodingFor : String → Option (String → Nat)

/-- Modelled from the spec: the Response Resolver (`config.py` is not in
the reviewed sources).  Iterate configured MatchRules in their configured
order; return the response text of the first rule whose pattern matches the
prompt; if no rule matches, return `default_response`. -/
def resolve (m : String → String → Bool) (cfg : ResolverConfig) (prompt : String) : String :=
  match cfg.rules.find? (fun r => m r.pattern prompt) with
  | some r => r.response
  | none => cfg.default_response

/-- Modelled from the spec: the Timed Emitter streaming mode.  Chunking is
character-by-character, as the source comment in `server.py` states
("Stream the content character by character with lag") and as the spec
scenario for text "ok" fixes.  The timing policy affects pacing only, never
content, so the content model ignores it. -/
def emit_stream (text : String) (_policy : TimingPolicy) : List String :=
  text.data.map (fun c => String.singleton c)

/-- Modelled from the spec: `ResponseConfig.get_response_with_lag` — the
non-streaming path resolves the prompt, waits the initial delay, and
returns the resolved text unchanged. -/
def get_response_with_lag (ctx : ServerContext) (prompt : String) : String :=
  resolve ctx.matching ctx.resolver prompt

/-- Modelled from the spec: `ResponseConfig.get_streaming_response_with_lag`
— the streaming path resolves the prompt and yields the resolved text
chunk-by-chunk under the timing policy. -/
def get_streaming_response_with_lag (ctx : ServerContext) (prompt : String) : List String :=
  emit_stream (resolve ctx.matching ctx.resolver prompt) ctx.timing

/-- Helper for `pySplit`: walk the characters, accumulating the current
word reversed; whitespace closes the current word, and empty words are
discarded. -/
def pySplitAux : List Char → List Char → List String
  | [], acc => if acc.isEmpty then [] else [String.mk acc.reverse]
  | c :: cs, acc =>
    if c.isWhitespace then
      if acc.isEmpty then pySplitAux cs []
      else String.mk acc.reverse :: pySplitAux cs []
    else pySplitAux cs (c :: acc)

/-- Python `text.split()` with no argument: split on whitespace runs and
discard empty pieces. -/
def pySplit (text : String) : List String :=
  pySplitAux text.data []

/-- `server.py` `count_tokens`: look the model up in the tokenizer; on
success return the length of the encoding of `text`; if the lookup fails
(the modelled exception), fall back to `len(text.split())`. -/
def count_tokens (ctx : ServerContext) (text model : String) : Nat :=
  match ctx.encodingFor model with
  | some enc => enc text
  | none => (pySplit text).length

/-- Left brace character, for building JSON text. -/
def lbrace : String := String.singleton (Char.ofNat 123)

/-- Right brace character, for building JSON text. -/
def rbrace : String := String.singleton (Char.ofNat 125)

/-- Modelled from the spec: JSON string escaping used by the envelope
serializer (`models.py` is not in the reviewed sources). -/
def jsonEscape (s : String) : String :=
  s.data.foldl (fun acc c =>
    if c = Char.ofNat 92 then acc ++ "\\\\"
    else if c = Char.ofNat 34 then acc ++ "\\\""
    else if c = Char.ofNat 10 then acc ++ "\\n"
    else acc ++ String.singleton c) ""

/-- A JSON string literal. -/
def jstr (s : String) : String := "\"" ++ jsonEscape s ++ "\""

/-- A JSON object from already-serialized field values. -/
def jsonObj (fields : List (String × String)) : String :=
  lbrace ++ String.intercalate ", " (fields.map (fun f => jstr f.1 ++ ": " ++ f.2)) ++ rbrace

/-- A JSON array from already-serialized elements. -/
def jsonArr (elems : List String) : String :=
  "[" ++ String.intercalate ", " elems ++ "]"

/-- Modelled from the spec: the OpenAI stream delta message, with the two
optional fields `server.py` sets (`models.py` is not in the reviewed
sources). -/
structure OpenAIDeltaMessage where
  role : Option String
  content : Option String
deriving DecidableEq

/-- Modelled from the spec: one OpenAI stream choice — a delta and an
optional finish reason. -/
structure OpenAIStreamChoice where
  delta : OpenAIDeltaMessage
  finish_reason : Option String
deriving DecidableEq

/-- Modelled from the spec: the OpenAI stream envelope `server.py`
constructs — a model name and a list of choices. -/
structure OpenAIStreamResponse where
  model : String
  choices : List OpenAIStreamChoice
deriving DecidableEq

/-- Modelled from the spec: serialization of a stream delta; unset optional
fields are omitted. -/
def dumpDelta (d : OpenAIDeltaMessage) : String :=
  jsonObj ((match d.role with
            | some r => [("role", jstr r)]
            | none => []) ++
           (match d.content with
            | some c => [("content", jstr c)]
            | none => []))

/-- Modelled from the spec: serialization of a stream choice. -/
def dumpChoice (c : OpenAIStreamChoice) : String :=
  jsonObj ([("delta", dumpDelta c.delta)] ++
           (match c.finish_reason with
            | some f => [("finish_reason", jstr f)]
            | none => []))

/-- Modelled from the spec: pydantic `model_dump_json` for the OpenAI
stream envelope. -/
def dumpOpenAIStream (r : OpenAIStreamResponse) : String :=
  jsonObj [("model", jstr r.model), ("choices", jsonArr (r.choices.map dumpChoice))]

/-- Modelled from the spec: the innermost Anthropic delta dict, carrying
the chunk text. -/
structure AnthropicTextDelta where
  text : String
deriving DecidableEq

/-- Modelled from the spec: `AnthropicStreamDelta` — its `delta` field
holds the text dict, as constructed in `server.py`. -/
structure AnthropicStreamDelta where
  delta : AnthropicTextDelta
deriving DecidableEq

/-- Modelled from the spec: `AnthropicStreamResponse` — its `delta` field
holds the stream delta, as constructed in `server.py`. -/
structure AnthropicStreamResponse where
  delta : AnthropicStreamDelta
deriving DecidableEq

/-- Modelled from the spec: pydantic `model_dump_json` for the Anthropic
stream envelope: the chunk text sits under a nested delta field. -/
def dumpAnthropicStream (r : AnthropicStreamResponse) : String :=
  jsonObj [("delta", jsonObj [("delta", jsonObj [("text", jstr r.delta.delta.text)])])]

/-- SSE framing from `server.py`: each event is the serialized payload
between a leading "data: " and a trailing blank line. -/
def sseFrame (json : String) : String := "data: " ++ json ++ "\n\n"

/-- The literal end-of-stream sentinel line yielded by `server.py`. -/
def sseDone : String := "data: [DONE]\n\n"

/-- `server.py` `openai_stream_response`: yield a first envelope announcing
the assistant role, then one envelope per chunk of the lagged streaming
response, then a final envelope with finish reason "stop", then the
sentinel. -/
def openai_stream_response (ctx : ServerContext) (content model : String) : List String :=
  let first_chunk : OpenAIStreamResponse := ⟨model, [⟨⟨some "assistant", none⟩, none⟩]⟩
  let body := (get_streaming_response_with_lag ctx content).map (fun chunk =>
    let chunk_response : OpenAIStreamResponse := ⟨model, [⟨⟨none, some chunk⟩, none⟩]⟩
    sseFrame (dumpOpenAIStream chunk_response))
  let final_chunk : OpenAIStreamResponse := ⟨model, [⟨⟨none, none⟩, some "stop"⟩]⟩
  sseFrame (dumpOpenAIStream first_chunk)
    :: (body ++ [sseFrame (dumpOpenAIStream final_chunk), sseDone])

/-- `server.py` `anthropic_stream_response`: yield one envelope per chunk
of the lagged streaming response, then the sentinel; the model argument is
not used in the envelope. -/
def anthropic_stream_response (ctx : ServerContext) (content _model : String) : List String :=
  ((get_streaming_response_with_lag ctx content).map (fun chunk =>
    sseFrame (dumpAnthropicStream ⟨⟨⟨chunk⟩⟩⟩)))
    ++ [sseDone]

/-- Modelled from the spec: the OpenAI chat request the handler consumes —
model, messages, and the streaming flag. -/
structure OpenAIChatRequest where
  model : String
  messages : List Message
  stream : Bool
deriving DecidableEq

/-- Modelled from the spec: the Anthropic chat request the handler consumes. -/
structure AnthropicChatRequest where
  model : String
  messages : List Message
  stream : Bool
deriving DecidableEq

/-- Modelled from the spec: the message object inside a non-streaming
OpenAI choice. -/
structure ChatMessage where
  role : String
  content : String
deriving DecidableEq

/-- Modelled from the spec: one non-streaming OpenAI choice, as the dict
built in `server.py`. -/
structure OpenAIChoice where
  index : Nat
  message : ChatMessage
  finish_reason : String
deriving DecidableEq

/-- Modelled from the spec: the OpenAI usage counters dict built in
`server.py`. -/
structure OpenAIUsage where
  prompt_tokens : Nat
  completion_tokens : Nat
  total_tokens : Nat
deriving DecidableEq

/-- Modelled from the spec: the non-streaming OpenAI response envelope, with
the fields `server.py` sets. -/
structure OpenAIChatResponse where
  model : String
  choices : List OpenAIChoice
  usage : OpenAIUsage
deriving DecidableEq

/-- Modelled from the spec: one Anthropic content block, as the dict built
in `server.py`. -/
structure AnthropicContentBlock where
  type : String
  text : String
deriving DecidableEq

/-- Modelled from the spec: the Anthropic usage counters dict built in
`server.py`. -/
structure AnthropicUsage where
  input_tokens : Nat
  output_tokens : Nat
  total_tokens : Nat
deriving DecidableEq

/-- Modelled from the spec: the non-streaming Anthropic response envelope,
with the fields `server.py` sets. -/
structure AnthropicChatResponse where
  model : String
  content : List AnthropicContentBlock
  usage : AnthropicUsage
deriving DecidableEq

/-- A fastapi `HTTPException`: an HTTP status code and a detail message. -/
structure HTTPException where
  status_code : Nat
  detail : String
deriving DecidableEq

/-- Python `str()` of an `HTTPException` (starlette renders it as
"status: detail"), as interpolated by the handlers into the 500 detail. -/
def strOfHTTPException (e : HTTPException) : String :=
  toString e.status_code ++ ": " ++ e.detail

/-- `server.py` lines 96-98 and 159-161: scan the request messages in
reverse and take the first whose role equals "user", if any. -/
def lastUserMessage (messages : List Message) : Option Message :=
  messages.reverse.find? (fun msg => msg.role == "user")

/-- Modelled from the spec: Python `str(request.messages)` — the text fed to
`count_tokens` for the prompt side.  `models.py` is not in the reviewed
sources, so the exact repr text is fixed here as a deterministic function of
the roles and contents only; both handlers call it on the same message
type. -/
def strOfMessages (messages : List Message) : String :=
  "[" ++ String.intercalate ", "
    (messages.map (fun msg =>
      "Message(role=" ++ msg.role ++ ", content=" ++ msg.content ++ ")")) ++ "]"

/-- What the OpenAI handler returns on success: a streaming response (the
list of SSE lines) or a JSON response envelope. -/
inductive OpenAIHandlerResult where
  | streamResp (events : List String)
  | jsonResp (resp : OpenAIChatResponse)
deriving DecidableEq

/-- What the Anthropic handler returns on success. -/
inductive AnthropicHandlerResult where
  | streamResp (events : List String)
  | jsonResp (resp : AnthropicChatResponse)
deriving DecidableEq

/-- The body of `server.py` `openai_chat_completion` (the code inside the
try block): reject with a 400 when no user-role message exists; otherwise
stream or resolve, count tokens, and build the envelope. -/
def openaiBody (ctx : ServerContext) (request : OpenAIChatRequest) :
    Except HTTPException OpenAIHandlerResult :=
  match lastUserMessage request.messages with
  | none => .error ⟨400, "No user message found in request"⟩
  | some last_message =>
    if request.stream then
      .ok (.streamResp (openai_stream_response ctx last_message.content request.model))
    else
      let response_content := get_response_with_lag ctx last_message.content
      let prompt_tokens := count_tokens ctx (strOfMessages request.messages) request.model
      let completion_tokens := count_tokens ctx response_content request.model
      let total_tokens := prompt_tokens + completion_tokens
      .ok (.jsonResp ⟨request.model,
        [⟨0, ⟨"assistant", response_content⟩, "stop"⟩],
        ⟨prompt_tokens, completion_tokens, total_tokens⟩⟩)

/-- `server.py` `openai_chat_completion` including its blanket
`except Exception` clause: every exception the body raises — the
`HTTPException(400)` included, since `HTTPException` subclasses
`Exception` — is caught and re-raised as a 500 whose detail interpolates
`str(e)`. -/
def openai_chat_completion (ctx : ServerContext) (request : OpenAIChatRequest) :
    Except HTTPException OpenAIHandlerResult :=
  match openaiBody ctx request with
  | .ok r => .ok r
  | .error e => .error ⟨500, "Internal server error: " ++ strOfHTTPException e⟩

/-- The body of `server.py` `anthropic_chat_completion` (the code inside the
try block). -/
def anthropicBody (ctx : ServerContext) (request : AnthropicChatRequest) :
    Except HTTPException AnthropicHandlerResult :=
  match lastUserMessage request.messages with
  | none => .error ⟨400, "No user message found in request"⟩
  | some last_message =>
    if request.stream then
      .ok (.streamResp (anthropic_stream_response ctx last_message.content request.model))
    else
      let response_content := get_response_with_lag ctx last_message.content
      let prompt_tokens := count_tokens ctx (strOfMessages request.messages) request.model
      let completion_tokens := count_tokens ctx response_content request.model
      let total_tokens := prompt_tokens + completion_tokens
      .ok (.jsonResp ⟨request.model,
        [⟨"text", response_content⟩],
        ⟨prompt_tokens, completion_tokens, total_tokens⟩⟩)

/-- `server.py` `anthropic_chat_completion` including its blanket
`except Exception` clause, identical in shape to the OpenAI handler. -/
def anthropic_chat_completion (ctx : ServerContext) (request : AnthropicChatRequest) :
    Except HTTPException AnthropicHandlerResult :=
  match anthropicBody ctx request with
  | .ok r => .ok r
  | .error e => .error ⟨500, "Internal server error: " ++ strOfHTTPException e⟩

/-- Concatenation of a chunk list in emission order. -/
def concatChunks : List String → String
  | [] => ""
  | c :: cs => c ++ concatChunks cs

/-- The content of the first choice of a non-streaming OpenAI response. -/
def openaiResponseText (r : OpenAIChatResponse) : String :=
  match r.choices with
  | c :: _ => c.message.content
  | [] => ""

/-- The text of the first content block of a non-streaming Anthropic
response. -/
def anthropicResponseText (r : AnthropicChatResponse) : String :=
  match r.content with
  | b :: _ => b.text
  | [] => ""

/-- The leading OpenAI envelope announcing the assistant role with empty
content, in the words of the spec. -/
def roleAnnouncementEnvelope (model : String) : OpenAIStreamResponse :=
  ⟨model, [⟨⟨some "assistant", none⟩, none⟩]⟩

/-- An OpenAI envelope carrying one chunk as incremental content, in the
words of the spec. -/
def contentEnvelope (model chunk : String) : OpenAIStreamResponse :=
  ⟨model, [⟨⟨none, some chunk⟩, none⟩]⟩

/-- The terminal OpenAI envelope carrying the stop marker, in the words of
the spec. -/
def stopEnvelope (model : String) : OpenAIStreamResponse :=
  ⟨model, [⟨⟨none, none⟩, some "stop"⟩]⟩

/-- The OpenAI-style event sequence exactly as the spec words it: one
leading role-announcement envelope, one envelope per chunk, one terminal
stop envelope, then the end-of-stream sentinel, each framed as an SSE data
line. -/
def openaiStreamSpecShape (model : String) (chunks : List String) : List String :=
  sseFrame (dumpOpenAIStream (roleAnnouncementEnvelope model))
    :: ((chunks.map (fun c => sseFrame (dumpOpenAIStream (contentEnvelope model c))))
      ++ [sseFrame (dumpOpenAIStream (stopEnvelope model)), sseDone])

/-- An Anthropic envelope wrapping one chunk under a nested delta field, in
the words of the spec. -/
def anthropicDeltaEnvelope (chunk : String) : AnthropicStreamResponse :=
  ⟨⟨⟨chunk⟩⟩⟩

/-- The Anthropic-style event sequence exactly as the spec words it: no
leading role-announcement envelope, one envelope per chunk, then the same
end-of-stream sentinel. -/
def anthropicStreamSpecShape (chunks : List String) : List String :=
  (chunks.map (fun c => sseFrame (dumpAnthropicStream (anthropicDeltaEnvelope c))))
    ++ [sseDone]

/-- A concrete matching strategy for counterexamples and witnesses: every
pattern matches every prompt. -/
def alwaysMatch : String → String → Bool := fun _ _ => true

/-- A concrete matching strategy for witnesses: the pattern must equal the
prompt exactly. -/
def exactMatch : String → String → Bool := fun pat prompt => pat == prompt

/-- A concrete server context for witnesses: exact matching, one rule, a
tokenizer that never recognizes a model. -/
def wctx : ServerContext :=
  ⟨exactMatch, ⟨[⟨"hello", "hi there"⟩], "I do not understand"⟩, ⟨0, 0⟩, fun _ => none⟩

/-- The resolver configuration of the C2 counterexample: three rules with
distinct responses, all of which match under `alwaysMatch`. -/
def cexConfig : ResolverConfig :=
  ⟨[⟨"a", "A"⟩, ⟨"b", "B"⟩, ⟨"c", "C"⟩], "fallback"⟩

/-- Concatenating the singleton strings of a character list rebuilds the
string over that list. -/
theorem concat_singletons (l : List Char) :
    concatChunks (l.map (fun c => String.singleton c)) = String.mk l := by
  induction l with
  | nil => rfl
  | cons c cs ih =>
    have h : concatChunks (String.singleton c :: cs.map (fun c => String.singleton c)) =
        String.singleton c ++ concatChunks (cs.map (fun c => String.singleton c)) := rfl
    rw [List.map_cons, h, ih]
    rfl

/-- The chunk list of `emit_stream` concatenates back to its input text. -/
theorem concat_emit_stream (text : String) (policy : TimingPolicy) :
    concatChunks (emit_stream text policy) = text := by
  unfold emit_stream
  rw [concat_singletons]

/-- `find?` returns the element at index `i` when it satisfies the
predicate and every earlier element does not. -/
theorem find?_of_first {α : Type} (p : α → Bool) (l : List α) :
    ∀ (i : Nat) (h : i < l.length),
      p (l.get ⟨i, h⟩) = true →
      (∀ k (hk : k < i), p (l.get ⟨k, Nat.lt_trans hk h⟩) = false) →
      l.find? p = some (l.get ⟨i, h⟩) := by
  induction l with
  | nil => intro i h; exact absurd h (Nat.not_lt_zero i)
  | cons a t ih =>
    intro i h hp hfirst
    cases i with
    | zero => simp_all [List.find?]
    | succ n =>
      have pa : p a = false := hfirst 0 (Nat.succ_pos n)
      simp only [List.find?, pa]
      exact ih n (Nat.lt_of_succ_lt_succ h) hp
        (fun k hk => hfirst (k + 1) (Nat.succ_lt_succ hk))

/-- `find?` over an append whose left part is all-false finds the head of
the right part when it satisfies the predicate. -/
theorem find?_append_left_none {α : Type} (p : α → Bool) (l₁ : List α) (x : α) (l₂ : List α)
    (h₁ : ∀ y ∈ l₁, p y = false) (hx : p x = true) :
    (l₁ ++ x :: l₂).find? p = some x := by
  induction l₁ with
  | nil => simp [List.find?, hx]
  | cons a t ih =>
    have pa : p a = false := h₁ a (List.mem_cons_self a t)
    rw [List.cons_append]
    simp only [List.find?, pa]
    exact ih (fun y hy => h₁ y (List.mem_cons_of_mem a hy))

/-- The last element of a cons followed by an append of a two-element
tail. -/
theorem getLast?_cons_append_pair {α : Type} (x a b : α) (l : List α) :
    (x :: (l ++ [a, b])).getLast? = some b := by
  have h : x :: (l ++ [a, b]) = (x :: (l ++ [a])) ++ [b] := by simp
  rw [h, List.getLast?_append]
  rfl

/-- The last element after appending a singleton. -/
theorem getLast?_append_singleton {α : Type} (b : α) (l : List α) :
    (l ++ [b]).getLast? = some b := by
  rw [List.getLast?_append]
  rfl

/-- Length of a cons followed by an append of a two-element tail. -/
theorem length_cons_append_pair {α : Type} (x a b : α) (l : List α) :
    (x :: (l ++ [a, b])).length = l.length + 3 := by
  simp

/-- Length after appending a singleton. -/
theorem length_append_singleton {α : Type} (b : α) (l : List α) :
    (l ++ [b]).length = l.length + 1 := by
  simp

/-- Claim C1: the spec says a request with no user-role message is rejected
as a 4xx client error with a descriptive message before the resolver or any
chunk sequence is created.  The code does reject before invoking any core
logic, and the body raises an HTTPException with status 400 — but the
blanket except-Exception clause of both handlers catches that very
exception and re-raises it as a 500, so the surfaced rejection is a
5xx-equivalent, contradicting the 4xx part of the claim.  This theorem
records the code behavior: the body produces the intended 400, and the
handler as a whole surfaces a 500 wrapping it. -/
theorem C1_no_user_message_surfaced_as_500 (ctx : ServerContext) (model : String)
    (messages : List Message) (s : Bool)
    (h : lastUserMessage messages = none) :
    openaiBody ctx ⟨model, messages, s⟩ =
      .error ⟨400, "No user message found in request"⟩ ∧
    openai_chat_completion ctx ⟨model, messages, s⟩ =
      .error ⟨500, "Internal server error: 400: No user message found in request"⟩ ∧
    anthropic_chat_completion ctx ⟨model, messages, s⟩ =
      .error ⟨500, "Internal server error: 400: No user message found in request"⟩ := by
  refine ⟨?_, ?_, ?_⟩
  · unfold openaiBody
    rw [show lastUserMessage (⟨model, messages, s⟩ : OpenAIChatRequest).messages = none from h]
  · unfold openai_chat_completion openaiBody
    rw [show lastUserMessage (⟨model, messages, s⟩ : OpenAIChatRequest).messages = none from h]
    rfl
  · unfold anthropic_chat_completion anthropicBody
    rw [show lastUserMessage (⟨model, messages, s⟩ : AnthropicChatRequest).messages = none from h]
    rfl

/-- Witness for C1 at a concrete request whose only message has role
"system". -/
theorem C1_no_user_message_surfaced_as_500_witness :
    lastUserMessage [(⟨"system", "hi"⟩ : Message)] = none ∧
    openai_chat_completion wctx ⟨"gpt-4", [⟨"system", "hi"⟩], false⟩ =
      .error ⟨500, "Internal server error: 400: No user message found in request"⟩ :=
  ⟨rfl, (C1_no_user_message_surfaced_as_500 wctx "gpt-4" [⟨"system", "hi"⟩] false rfl).2.1⟩

/-- Claim C2, as stated, is false on the modelled resolver: with three
rules that all match the prompt "abc" and carry distinct responses, taking
i = 1 and j = 2 gives two matching rules with i < j, yet `resolve` does not
return rule 1's response — it returns rule 0's, because an even earlier
rule also matches. -/
theorem C2_counterexample :
    1 < 2 ∧
    alwaysMatch ((cexConfig.rules.get ⟨1, by decide⟩).pattern) "abc" = true ∧
    alwaysMatch ((cexConfig.rules.get ⟨2, by decide⟩).pattern) "abc" = true ∧
    ¬ resolve alwaysMatch cexConfig "abc" = (cexConfig.rules.get ⟨1, by decide⟩).response := by
  refine ⟨by decide, rfl, rfl, by decide⟩

/-- Claim C2 (amended): if rule i and rule j with i < j both match P and no
rule before i matches P, then `resolve` returns rule i's response — the
first matching rule in configured order always wins. -/
theorem C2_first_match_wins (m : String → String → Bool) (cfg : ResolverConfig) (P : String)
    (i j : Nat) (hi : i < cfg.rules.length) (hj : j < cfg.rules.length) (hij : i < j)
    (hmi : m (cfg.rules.get ⟨i, hi⟩).pattern P = true)
    (hmj : m (cfg.rules.get ⟨j, hj⟩).pattern P = true)
    (hfirst : ∀ k (hk : k < i), m (cfg.rules.get ⟨k, Nat.lt_trans hk hi⟩).pattern P = false) :
    resolve m cfg P = (cfg.rules.get ⟨i, hi⟩).response := by
  unfold resolve
  rw [find?_of_first (fun r => m r.pattern P) cfg.rules i hi hmi hfirst]

/-- Witness for the amended C2: two rules that both match, the first of
which wins. -/
theorem C2_first_match_wins_witness :
    resolve alwaysMatch ⟨[⟨"x", "X"⟩, ⟨"y", "Y"⟩], "fallback"⟩ "x" = "X" :=
  C2_first_match_wins alwaysMatch ⟨[⟨"x", "X"⟩, ⟨"y", "Y"⟩], "fallback"⟩ "x" 0 1
    (by decide) (by decide) (by decide) rfl rfl
    (fun k hk => absurd hk (Nat.not_lt_zero k))

/-- Claim C3: for every text (empty or not) and every timing policy, the
chunk sequence of the streaming emitter is finite (it is a list whose
length is the length of the text) and concatenating its chunks in emission
order reconstructs the input text exactly. -/
theorem C3_stream_roundtrip (text : String) (policy : TimingPolicy) :
    concatChunks (emit_stream text policy) = text ∧
    (emit_stream text policy).length = text.length := by
  refine ⟨concat_emit_stream text policy, ?_⟩
  unfold emit_stream
  rw [List.length_map]
  rfl

/-- Claim C4: resolution is total, and when no configured rule matches the
prompt — the empty and whitespace-only prompts included — `resolve` returns
exactly the configured default response. -/
theorem C4_no_match_returns_default (m : String → String → Bool) (cfg : ResolverConfig)
    (prompt : String)
    (h : ∀ r ∈ cfg.rules, m r.pattern prompt = false) :
    resolve m cfg prompt = cfg.default_response := by
  unfold resolve
  have hnone : cfg.rules.find? (fun r => m r.pattern prompt) = none :=
    List.find?_eq_none.mpr (fun r hr => by simp [h r hr])
  rw [hnone]

/-- Witness for C4 at the empty prompt under a configuration with one
non-matching rule. -/
theorem C4_no_match_returns_default_witness :
    resolve exactMatch wctx.resolver "" = "I do not understand" :=
  C4_no_match_returns_default exactMatch wctx.resolver "" (by decide)

/-- Claim C5: for a fixed configuration and the same prompt, the streaming
path and the non-streaming path agree — the concatenation of the chunk
sequence the streaming branch consumes equals the text the non-streaming
branch puts in its response envelope. -/
theorem C5_stream_and_nonstream_agree (ctx : ServerContext) (messages : List Message)
    (model : String) (msg : Message)
    (h : lastUserMessage messages = some msg) :
    ∃ resp,
      openai_chat_completion ctx ⟨model, messages, false⟩ = .ok (.jsonResp resp) ∧
      concatChunks (get_streaming_response_with_lag ctx msg.content) =
        openaiResponseText resp := by
  refine ⟨⟨model, [⟨0, ⟨"assistant", get_response_with_lag ctx msg.content⟩, "stop"⟩],
    ⟨count_tokens ctx (strOfMessages messages) model,
     count_tokens ctx (get_response_with_lag ctx msg.content) model,
     count_tokens ctx (strOfMessages messages) model +
       count_tokens ctx (get_response_with_lag ctx msg.content) model⟩⟩, ?_, ?_⟩
  · unfold openai_chat_completion openaiBody
    rw [show lastUserMessage (⟨model, messages, false⟩ : OpenAIChatRequest).messages = some msg from h]
    rfl
  · exact concat_emit_stream (resolve ctx.matching ctx.resolver msg.content) ctx.timing

/-- Witness for C5 at a concrete request whose prompt matches the single
configured rule. -/
theorem C5_stream_and_nonstream_agree_witness :
    ∃ resp,
      openai_chat_completion wctx ⟨"gpt-4", [⟨"user", "hello"⟩], false⟩ = .ok (.jsonResp resp) ∧
      concatChunks (get_streaming_response_with_lag wctx "hello") = openaiResponseText resp :=
  C5_stream_and_nonstream_agree wctx [⟨"user", "hello"⟩] "gpt-4" ⟨"user", "hello"⟩ rfl

/-- Claim C6: the OpenAI-style stream is, in this exact order, one leading
envelope announcing the assistant role, one envelope per chunk carrying
that chunk as incremental content, one terminal envelope carrying the stop
marker, and the literal end-of-stream sentinel, each event framed as an SSE
data line; its last event is the sentinel and its event count is the chunk
count plus three. -/
theorem C6_openai_stream_shape (ctx : ServerContext) (content model : String) :
    openai_stream_response ctx content model =
      openaiStreamSpecShape model (get_streaming_response_with_lag ctx content) ∧
    (openai_stream_response ctx content model).getLast? = some sseDone ∧
    (openai_stream_response ctx content model).length =
      (get_streaming_response_with_lag ctx content).length + 3 := by
  refine ⟨rfl, getLast?_cons_append_pair _ _ _ _, ?_⟩
  have h := length_cons_append_pair
    (sseFrame (dumpOpenAIStream (roleAnnouncementEnvelope model)))
    (sseFrame (dumpOpenAIStream (stopEnvelope model))) sseDone
    ((get_streaming_response_with_lag ctx content).map
      (fun c => sseFrame (dumpOpenAIStream (contentEnvelope model c))))
  rw [List.length_map] at h
  exact h

/-- Claim C7: the Anthropic-style stream emits no leading role-announcement
envelope — it is exactly one envelope per chunk, the chunk text wrapped
under a nested delta field, followed by the same end-of-stream sentinel;
its last event is the sentinel and its event count is the chunk count plus
one. -/
theorem C7_anthropic_stream_shape (ctx : ServerContext) (content model : String) :
    anthropic_stream_response ctx content model =
      anthropicStreamSpecShape (get_streaming_response_with_lag ctx content) ∧
    (anthropic_stream_response ctx content model).getLast? = some sseDone ∧
    (anthropic_stream_response ctx content model).length =
      (get_streaming_response_with_lag ctx content).length + 1 := by
  refine ⟨rfl, getLast?_append_singleton _ _, ?_⟩
  have h := length_append_singleton sseDone
    ((get_streaming_response_with_lag ctx content).map
      (fun c => sseFrame (dumpAnthropicStream (anthropicDeltaEnvelope c))))
  rw [List.length_map] at h
  exact h

/-- Claim C8: when the messages decompose as `pre ++ msg :: post` with
`msg` of role "user" and nothing in `post` of role "user" — that is, `msg`
is the last user-role message — the reverse scan selects exactly `msg`, and
both handlers pass `msg.content` on as the content to stream or resolve. -/
theorem C8_last_user_message_selected (ctx : ServerContext) (model : String)
    (pre post : List Message) (msg : Message)
    (hrole : msg.role = "user")
    (hpost : ∀ m2 ∈ post, m2.role ≠ "user") :
    lastUserMessage (pre ++ msg :: post) = some msg ∧
    openai_chat_completion ctx ⟨model, pre ++ msg :: post, true⟩ =
      .ok (.streamResp (openai_stream_response ctx msg.content model)) ∧
    anthropic_chat_completion ctx ⟨model, pre ++ msg :: post, true⟩ =
      .ok (.streamResp (anthropic_stream_response ctx msg.content model)) := by
  have hl : lastUserMessage (pre ++ msg :: post) = some msg := by
    unfold lastUserMessage
    rw [List.reverse_append, List.reverse_cons, List.append_assoc]
    apply find?_append_left_none
    · intro y hy
      have hmem : y ∈ post := List.mem_reverse.mp hy
      simp [hpost y hmem]
    · simp [hrole]
  refine ⟨hl, ?_, ?_⟩
  · unfold openai_chat_completion openaiBody
    rw [show lastUserMessage (⟨model, pre ++ msg :: post, true⟩ : OpenAIChatRequest).messages = some msg from hl]
    rfl
  · unfold anthropic_chat_completion anthropicBody
    rw [show lastUserMessage (⟨model, pre ++ msg :: post, true⟩ : AnthropicChatRequest).messages = some msg from hl]
    rfl

/-- Witness for C8: of two user messages followed by a system message, the
second user message is selected. -/
theorem C8_last_user_message_selected_witness :
    lastUserMessage ([⟨"user", "first"⟩] ++ ⟨"user", "second"⟩ :: [⟨"system", "sys"⟩]) =
      some ⟨"user", "second"⟩ ∧
    openai_chat_completion wctx
        ⟨"gpt-4", [⟨"user", "first"⟩] ++ ⟨"user", "second"⟩ :: [⟨"system", "sys"⟩], true⟩ =
      .ok (.streamResp (openai_stream_response wctx "second" "gpt-4")) ∧
    anthropic_chat_completion wctx
        ⟨"gpt-4", [⟨"user", "first"⟩] ++ ⟨"user", "second"⟩ :: [⟨"system", "sys"⟩], true⟩ =
      .ok (.streamResp (anthropic_stream_response wctx "second" "gpt-4")) :=
  C8_last_user_message_selected wctx "gpt-4" [⟨"user", "first"⟩] [⟨"system", "sys"⟩]
    ⟨"user", "second"⟩ rfl (by decide)

/-- Claim C9: `count_tokens` is total — it always returns a number — and
when the tokenizer does not recognize the model identifier it degrades to
the whitespace-separated word count of the text. -/
theorem C9_count_tokens_fallback (ctx : ServerContext) (text model : String)
    (h : ctx.encodingFor model = none) :
    count_tokens ctx text model = (pySplit text).length := by
  unfold count_tokens
  rw [h]

/-- Witness for C9: an unrecognized model falls back to the word count. -/
theorem C9_count_tokens_fallback_witness :
    wctx.encodingFor "mystery-model" = none ∧
    count_tokens wctx "hello  brave world" "mystery-model" = 3 :=
  ⟨rfl, C9_count_tokens_fallback wctx "hello  brave world" "mystery-model" rfl⟩

/-- Claim C10: on the same messages and model, the OpenAI and Anthropic
non-streaming handlers produce the same resolved response text and the same
prompt, completion, and total token counts, with the total equal to the sum
in both; only the vendor envelope shape differs. -/
theorem C10_handlers_agree (ctx : ServerContext) (messages : List Message) (model : String)
    (msg : Message)
    (h : lastUserMessage messages = some msg) :
    ∃ text pt ct,
      openai_chat_completion ctx ⟨model, messages, false⟩ =
        .ok (.jsonResp ⟨model, [⟨0, ⟨"assistant", text⟩, "stop"⟩], ⟨pt, ct, pt + ct⟩⟩) ∧
      anthropic_chat_completion ctx ⟨model, messages, false⟩ =
        .ok (.jsonResp ⟨model, [⟨"text", text⟩], ⟨pt, ct, pt + ct⟩⟩) := by
  refine ⟨get_response_with_lag ctx msg.content,
    count_tokens ctx (strOfMessages messages) model,
    count_tokens ctx (get_response_with_lag ctx msg.content) model, ?_, ?_⟩
  · unfold openai_chat_completion openaiBody
    rw [show lastUserMessage (⟨model, messages, false⟩ : OpenAIChatRequest).messages = some msg from h]
    rfl
  · unfold anthropic_chat_completion anthropicBody
    rw [show lastUserMessage (⟨model, messages, false⟩ : AnthropicChatRequest).messages = some msg from h]
    rfl

/-- Witness for C10 at a concrete request. -/
theorem C10_handlers_agree_witness :
    ∃ text pt ct,
      openai_chat_completion wctx ⟨"gpt-4", [⟨"user", "hello"⟩], false⟩ =
        .ok (.jsonResp ⟨"gpt-4", [⟨0, ⟨"assistant", text⟩, "stop"⟩], ⟨pt, ct, pt + ct⟩⟩) ∧
      anthropic_chat_completion wctx ⟨"gpt-4", [⟨"user", "hello"⟩], false⟩ =
        .ok (.jsonResp ⟨"gpt-4", [⟨"text", text⟩], ⟨pt, ct, pt + ct⟩⟩) :=
  C10_handlers_agree wctx [⟨"user", "hello"⟩] "gpt-4" ⟨"user", "hello"⟩ rfl

end MockLLM
